import Mathlib

/-!
Shallow embedding of the `broadcast` package of `juno-broadcast`
(`internal/broadcast/broadcast.go`): the submission client and status
resolver over a JSON-RPC transport to a `junocashd` daemon.

The transport is modelled as a record of deterministic per-method response
functions; each operation additionally returns the trace of transport calls
it made, so that claims about which calls happen (and with which payloads)
are statable.  Go `int64` counters are modelled as `Int` (only comparisons
occur, never overflowing arithmetic).  Go `strings.ToLower` and
`unicode.IsSpace` are Unicode-wide; the embedding uses their ASCII/Latin-1
restrictions, which coincide with Go on every string the claims range over
(hex identifiers and daemon messages).
-/

namespace Broadcast

/-- The character class trimmed by Go `strings.TrimSpace` (Latin-1 part of
`unicode.IsSpace`): space, tab, newline, vertical tab, form feed, carriage
return, NEL (U+0085) and NBSP (U+00A0). -/
def isGoSpace (c : Char) : Bool :=
  c = ' ' || c = '\t' || c = '\n' || c = '\r' ||
  c.toNat = 11 || c.toNat = 12 || c.toNat = 133 || c.toNat = 160

/-- Go `strings.TrimSpace` on the character list: drop spaces from both ends. -/
def trimSpaceList (l : List Char) : List Char :=
  ((l.dropWhile isGoSpace).reverse.dropWhile isGoSpace).reverse

/-- Go `strings.TrimSpace`. -/
def strTrimSpace (s : String) : String :=
  String.mk (trimSpaceList s.data)

/-- Go `strings.ToLower` (ASCII restriction; `Char.toLower` lowers `A`-`Z`). -/
def strToLower (s : String) : String :=
  String.mk (s.data.map Char.toLower)

/-- A hexadecimal digit as accepted by Go `encoding/hex`. -/
def isHexChar (c : Char) : Bool :=
  ('0' ≤ c && c ≤ '9') || ('a' ≤ c && c ≤ 'f') || ('A' ≤ c && c ≤ 'F')

/-- Whether Go `hex.DecodeString` succeeds on `s`: every character is a hex
digit and the length is even. -/
def hexDecodeOk (s : String) : Bool :=
  s.data.all isHexChar && s.data.length % 2 = 0

/-- True when the first list occurs at the head of the second list. -/
def leadsWith : List Char → List Char → Bool
  | [], _ => true
  | _ :: _, [] => false
  | a :: as, b :: bs => a = b && leadsWith as bs

/-- True when `needle` occurs contiguously inside the second list. -/
def containsSub (needle : List Char) : List Char → Bool
  | [] => leadsWith needle []
  | b :: bs => leadsWith needle (b :: bs) || containsSub needle bs

/-- Go `strings.Contains hay needle`. -/
def strContains (hay needle : String) : Bool :=
  containsSub needle.data hay.data

/-- Go error values as they reach the broadcast package: a
`junocashd.RPCError` (code and message), any other error (by message), an
error wrapping another via `fmt.Errorf` with a `%w` verb, or a context
cancellation error. -/
inductive Err where
  | rpc (code : Int) (message : String)
  | plain (message : String)
  | wrap (wrapMsg : String) (inner : Err)
  | ctxCanceled
deriving DecidableEq, Repr

/-- Go `errors.As(err, &rpcErr)` for `*junocashd.RPCError`: unwrap through
wrappers and return the code and message when the chain reaches an
`RPCError`. -/
def errAsRPC : Err → Option (Int × String)
  | Err.rpc code msg => some (code, msg)
  | Err.wrap _ inner => errAsRPC inner
  | Err.plain _ => none
  | Err.ctxCanceled => none

/-- The struct `broadcast.TxStatus`. -/
structure TxStatus where
  txid : String
  inMempool : Bool
  confirmations : Int
  blockHash : String
deriving DecidableEq, Repr

/-- The Go zero value of `TxStatus`. -/
def TxStatus.zero : TxStatus :=
  { txid := "", inMempool := false, confirmations := 0, blockHash := "" }

/-- The shape decoded from a verbose `getrawtransaction` reply
(the anonymous struct in `Client.Status`). -/
structure VerboseTx where
  txid : String
  blockHash : String
  confirmations : Int
deriving DecidableEq, Repr

/-- The transport (the `broadcast.RPC` interface), modelled as deterministic
per-method responses for one round of calls: the reply to
`Call("getrawtransaction", [txid, 1])`, to `Call("getrawmempool", [false])`
and to `SendRawTransaction`. -/
structure RPC where
  getRawTransactionReply : String → Except Err VerboseTx
  getRawMempoolReply : Except Err (List String)
  sendRawTransactionReply : String → Except Err String

/-- One recorded transport invocation, with the payload the client passed. -/
inductive RpcCall where
  | callGetRawTransaction (txid : String)
  | callGetRawMempool
  | sendRawTransaction (txHex : String)
deriving DecidableEq, Repr

/-- The function `broadcast.normalizeHex`: trim; error when empty; error
when not decodable hex; otherwise return the trimmed string unchanged. -/
def normalizeHex (s0 : String) : Except Err String :=
  let s := strTrimSpace s0
  if s = "" then Except.error (Err.plain "broadcast: raw tx hex is required")
  else if hexDecodeOk s = false then
    Except.error (Err.plain "broadcast: raw tx hex must be hex")
  else Except.ok s

/-- The function `broadcast.isNotFoundErr`: true only when the error is, or
wraps, a `junocashd.RPCError` whose lowercased message contains one of the
known not-found substrings. -/
def isNotFoundErr (e : Err) : Bool :=
  match errAsRPC e with
  | none => false
  | some (_, message) =>
    let m := strToLower message
    strContains m "no such mempool" || strContains m "no such" ||
      strContains m "not found"

/-- The method `Client.Submit`, paired with the trace of transport calls it
makes. -/
def Submit (rpc : RPC) (rawTxHex : String) : Except Err String × List RpcCall :=
  match normalizeHex rawTxHex with
  | Except.error e => (Except.error e, [])
  | Except.ok raw =>
    match rpc.sendRawTransactionReply raw with
    | Except.error e => (Except.error e, [RpcCall.sendRawTransaction raw])
    | Except.ok txid0 =>
      let txid := strToLower (strTrimSpace txid0)
      if (hexDecodeOk txid && txid.data.length = 64) = false then
        (Except.error (Err.plain "broadcast: node returned invalid txid"),
         [RpcCall.sendRawTransaction raw])
      else (Except.ok txid, [RpcCall.sendRawTransaction raw])

/-- The `(TxStatus, bool, error)` triple returned by `Client.Status`. -/
structure StatusRet where
  st : TxStatus
  found : Bool
  err : Option Err
deriving DecidableEq, Repr

/-- The method `Client.Status`, paired with the trace of transport calls it
makes: normalize and validate the txid, try the direct lookup, and on a
not-found-classified error fall back to mempool membership. -/
def Status (rpc : RPC) (txidArg : String) : StatusRet × List RpcCall :=
  let txid := strToLower (strTrimSpace txidArg)
  if (hexDecodeOk txid && txid.data.length = 64) = false then
    ({ st := TxStatus.zero, found := false,
       err := some (Err.plain "broadcast: txid must be 32-byte hex") }, [])
  else
    match rpc.getRawTransactionReply txid with
    | Except.ok verbose =>
      ({ st := { txid := txid,
                 inMempool := verbose.confirmations = 0 && verbose.blockHash = "",
                 confirmations := verbose.confirmations,
                 blockHash := strTrimSpace verbose.blockHash },
         found := true, err := none }, [RpcCall.callGetRawTransaction txid])
    | Except.error e =>
      if isNotFoundErr e = false then
        ({ st := TxStatus.zero, found := false, err := some e },
         [RpcCall.callGetRawTransaction txid])
      else
        match rpc.getRawMempoolReply with
        | Except.error e2 =>
          ({ st := TxStatus.zero, found := false,
             err := some (Err.wrap "broadcast: getrawmempool" e2) },
           [RpcCall.callGetRawTransaction txid, RpcCall.callGetRawMempool])
        | Except.ok mempool =>
          if mempool.any (fun id => strToLower (strTrimSpace id) = txid) then
            ({ st := { txid := txid, inMempool := true, confirmations := 0,
                       blockHash := "" },
               found := true, err := none },
             [RpcCall.callGetRawTransaction txid, RpcCall.callGetRawMempool])
          else
            ({ st := TxStatus.zero, found := false, err := none },
             [RpcCall.callGetRawTransaction txid, RpcCall.callGetRawMempool])

/-- The loop body of `Client.WaitForConfirmations`.  The daemon's state may
change between polls, so a run is modelled by the list of per-poll
transport responses; exhausting the list models the caller's context being
cancelled before the next tick fires (the only other way the Go loop
exits). -/
def waitLoop (txid : String) (confirmations : Int) :
    List RPC → Except Err TxStatus × List RpcCall
  | [] => (Except.error Err.ctxCanceled, [])
  | rpc :: rest =>
    let r := (Status rpc txid).1
    let tr := (Status rpc txid).2
    match r.err with
    | some e => (Except.error e, tr)
    | none =>
      if r.found = true ∧ (confirmations = 0 ∨ confirmations ≤ r.st.confirmations) then
        (Except.ok r.st, tr)
      else
        ((waitLoop txid confirmations rest).1,
         tr ++ (waitLoop txid confirmations rest).2)

/-- The method `Client.WaitForConfirmations`, paired with the trace of
transport calls: reject a negative target before any transport call, then
poll `Status` until the target is reached, an error occurs, or the context
is cancelled. -/
def WaitForConfirmations (polls : List RPC) (txid : String)
    (confirmations : Int) : Except Err TxStatus × List RpcCall :=
  if confirmations < 0 then
    (Except.error (Err.plain "broadcast: confirmations must be >= 0"), [])
  else waitLoop txid confirmations polls

/-- The resolver configuration held by `broadcast.Client` (the transport
handle aside): the poll interval in nanoseconds (Go `time.Duration`). -/
structure ClientCfg where
  pollInterval : Int
deriving DecidableEq, Repr

/-- The default interval, 500 milliseconds in nanoseconds. -/
def defaultPollInterval : Int := 500 * 1000000

/-- The option `broadcast.WithPollInterval`: sets the interval only when
positive. -/
def WithPollInterval (d : Int) : ClientCfg → ClientCfg :=
  fun c => if 0 < d then { c with pollInterval := d } else c

/-- The constructor `broadcast.New`: fail when the transport is nil,
otherwise apply every non-nil option to the default configuration.
`rpcPresent` models whether the `rpc` argument is non-nil; a `none` list
entry models a nil option value. -/
def New (rpcPresent : Bool) (opts : List (Option (ClientCfg → ClientCfg))) :
    Except Err ClientCfg :=
  if rpcPresent = false then Except.error (Err.plain "broadcast: rpc is nil")
  else
    Except.ok (opts.foldl
      (fun c o => match o with | some f => f c | none => c)
      { pollInterval := defaultPollInterval })

/-- Spec-side description of the wait loop's outcome, phrased over the
sequence of per-poll `Status` results: the first result carrying an error
aborts with that error; otherwise the first result with `found` and the
confirmation target reached (a target of zero is reached by mere
observation) is returned; exhausting the sequence is cancellation. -/
def specFirstSettled (minConfirmations : Int) :
    List StatusRet → Except Err TxStatus
  | [] => Except.error Err.ctxCanceled
  | r :: rest =>
    match r.err with
    | some e => Except.error e
    | none =>
      if r.found = true ∧
          (minConfirmations = 0 ∨ minConfirmations ≤ r.st.confirmations) then
        Except.ok r.st
      else specFirstSettled minConfirmations rest

/-- A concrete canonical 64-hex transaction id used by witnesses. -/
def cid64 : String := String.mk (List.replicate 64 'b')

/-- Witness transport: direct lookup replies with the daemon's not-found
RPC error; the mempool listing holds the id in uppercase. -/
def rpcC1 : RPC :=
  { getRawTransactionReply := fun _ =>
      Except.error (Err.rpc (-5) "No such mempool or blockchain transaction")
  , getRawMempoolReply := Except.ok [String.mk (List.replicate 64 'B')]
  , sendRawTransactionReply := fun _ => Except.ok "" }

/-- Witness transport: direct lookup fails with an authentication error. -/
def rpcC2 : RPC :=
  { getRawTransactionReply := fun _ =>
      Except.error (Err.rpc (-32600) "authentication failed")
  , getRawMempoolReply := Except.ok []
  , sendRawTransactionReply := fun _ => Except.ok "" }

/-- Witness transport: direct lookup succeeds with zero confirmations and
an empty block hash. -/
def rpcC3 : RPC :=
  { getRawTransactionReply := fun t =>
      Except.ok { txid := t, blockHash := "", confirmations := 0 }
  , getRawMempoolReply := Except.ok []
  , sendRawTransactionReply := fun _ => Except.ok "" }

/-- Counterexample transport: the daemon reports a block hash together with
zero confirmations, and the code copies both fields verbatim. -/
def rpcC7 : RPC :=
  { getRawTransactionReply := fun t =>
      Except.ok { txid := t, blockHash := "ff", confirmations := 0 }
  , getRawMempoolReply := Except.ok []
  , sendRawTransactionReply := fun _ => Except.ok "" }

/-- Witness transport: a well-formed confirmed direct-lookup reply. -/
def rpcC7b : RPC :=
  { getRawTransactionReply := fun t =>
      Except.ok { txid := t, blockHash := "ab", confirmations := 3 }
  , getRawMempoolReply := Except.ok []
  , sendRawTransactionReply := fun _ => Except.ok "" }

/-- Witness transport: a non-RPCError failure whose message contains
not-found phrasing. -/
def rpcC10 : RPC :=
  { getRawTransactionReply := fun _ =>
      Except.error (Err.plain "transaction not found: no such row")
  , getRawMempoolReply := Except.ok [String.mk (List.replicate 64 'b')]
  , sendRawTransactionReply := fun _ => Except.ok "" }

/-- Witness transport: a confirmed reply for the wait loop. -/
def rpcC4ok : RPC :=
  { getRawTransactionReply := fun t =>
      Except.ok { txid := t, blockHash := "aa", confirmations := 2 }
  , getRawMempoolReply := Except.ok []
  , sendRawTransactionReply := fun _ => Except.ok "" }

/-- Witness transport: a hard failure for the wait loop. -/
def rpcC4err : RPC :=
  { getRawTransactionReply := fun _ => Except.error (Err.plain "boom")
  , getRawMempoolReply := Except.ok []
  , sendRawTransactionReply := fun _ => Except.ok "" }

/-- Witness transport: the node answers a submission with 64 uppercase A
characters. -/
def rpcC5 : RPC :=
  { getRawTransactionReply := fun _ => Except.error (Err.plain "unused")
  , getRawMempoolReply := Except.ok []
  , sendRawTransactionReply := fun _ =>
      Except.ok (String.mk (List.replicate 64 'A')) }

/-- Witness transport: echoes the submitted payload. -/
def rpcC6 : RPC :=
  { getRawTransactionReply := fun _ => Except.error (Err.plain "unused")
  , getRawMempoolReply := Except.ok []
  , sendRawTransactionReply := fun s => Except.ok s }

/-- Helper: a direct-lookup error not classified as not-found is returned
from `Status` as-is, with no mempool query. -/
theorem status_error_no_fallback (rpc : RPC) (txidArg : String) (e : Err)
    (h1 : hexDecodeOk (strToLower (strTrimSpace txidArg)) = true)
    (h2 : (strToLower (strTrimSpace txidArg)).data.length = 64)
    (h3 : rpc.getRawTransactionReply (strToLower (strTrimSpace txidArg)) =
      Except.error e)
    (h4 : isNotFoundErr e = false) :
    (Status rpc txidArg).1 = { st := TxStatus.zero, found := false, err := some e } ∧
    (Status rpc txidArg).2 =
      [RpcCall.callGetRawTransaction (strToLower (strTrimSpace txidArg))] := by
  simp [Status, h1, h2, h3, h4]

/-- Helper: the value returned by the wait loop equals the spec-side first
settled result over the per-poll `Status` outcomes. -/
theorem waitLoop_fst_eq (txid : String) (c : Int) (polls : List RPC) :
    (waitLoop txid c polls).1 =
      specFirstSettled c (polls.map fun rpc => (Status rpc txid).1) := by
  induction polls with
  | nil => rfl
  | cons rpc rest ih =>
    simp only [waitLoop, specFirstSettled, List.map_cons]
    cases h : ((Status rpc txid).1).err with
    | some e => simp [h]
    | none =>
      simp only [h]
      by_cases hc : (Status rpc txid).1.found = true ∧
          (c = 0 ∨ c ≤ (Status rpc txid).1.st.confirmations)
      · simp [hc]
      · simp [hc, ih]

/-- C1: for every valid 64-hex txid, when the direct lookup fails with a
not-found-classified transport error and the mempool listing succeeds,
`Status` queries the listing; when some listed id trims and lowercases to
the normalized txid it returns the in-mempool status with zero
confirmations, no block hash and `found = true`, and when none matches it
returns the empty status with `found = false` and no error. -/
theorem Status_notFound_mempool_fallback (rpc : RPC) (txidArg : String) (e : Err)
    (mempool : List String)
    (h1 : hexDecodeOk (strToLower (strTrimSpace txidArg)) = true)
    (h2 : (strToLower (strTrimSpace txidArg)).data.length = 64)
    (h3 : rpc.getRawTransactionReply (strToLower (strTrimSpace txidArg)) =
      Except.error e)
    (h4 : isNotFoundErr e = true)
    (h5 : rpc.getRawMempoolReply = Except.ok mempool) :
    (Status rpc txidArg).2 =
      [RpcCall.callGetRawTransaction (strToLower (strTrimSpace txidArg)),
       RpcCall.callGetRawMempool] ∧
    (mempool.any (fun id => strToLower (strTrimSpace id) = strToLower (strTrimSpace txidArg)) = true →
      (Status rpc txidArg).1 =
        { st := { txid := strToLower (strTrimSpace txidArg), inMempool := true,
                  confirmations := 0, blockHash := "" },
          found := true, err := none }) ∧
    (mempool.any (fun id => strToLower (strTrimSpace id) = strToLower (strTrimSpace txidArg)) = false →
      (Status rpc txidArg).1 = { st := TxStatus.zero, found := false, err := none }) := by
  refine ⟨?_, ?_, ?_⟩
  · by_cases hm : mempool.any (fun id => strToLower (strTrimSpace id) = strToLower (strTrimSpace txidArg)) = true
    · simp [Status, h1, h2, h3, h4, h5, hm]
    · simp [Status, h1, h2, h3, h4, h5, hm]
  · intro hm; simp [Status, h1, h2, h3, h4, h5, hm]
  · intro hm; simp [Status, h1, h2, h3, h4, h5, hm]

/-- C1 witness: evaluates the claim on a concrete not-found error with the
id listed in the mempool in uppercase. -/
theorem Status_notFound_mempool_fallback_witness :
    (Status rpcC1 cid64).1 =
      { st := { txid := strToLower (strTrimSpace cid64), inMempool := true,
                confirmations := 0, blockHash := "" },
        found := true, err := none } ∧
    (Status rpcC1 cid64).2 =
      [RpcCall.callGetRawTransaction (strToLower (strTrimSpace cid64)),
       RpcCall.callGetRawMempool] := by
  have h := Status_notFound_mempool_fallback rpcC1 cid64
    (Err.rpc (-5) "No such mempool or blockchain transaction")
    [String.mk (List.replicate 64 'B')]
    (by decide) (by decide) rfl (by decide) rfl
  exact ⟨h.2.1 (by decide), h.1⟩

/-- C2: for every valid 64-hex txid, a direct-lookup transport error that is
not classified as not-found is returned from `Status` immediately, and the
trace shows the mempool listing is never queried. -/
theorem Status_otherError_shortCircuits (rpc : RPC) (txidArg : String) (e : Err)
    (h1 : hexDecodeOk (strToLower (strTrimSpace txidArg)) = true)
    (h2 : (strToLower (strTrimSpace txidArg)).data.length = 64)
    (h3 : rpc.getRawTransactionReply (strToLower (strTrimSpace txidArg)) =
      Except.error e)
    (h4 : isNotFoundErr e = false) :
    (Status rpc txidArg).1 = { st := TxStatus.zero, found := false, err := some e } ∧
    (Status rpc txidArg).2 =
      [RpcCall.callGetRawTransaction (strToLower (strTrimSpace txidArg))] :=
  status_error_no_fallback rpc txidArg e h1 h2 h3 h4

/-- C2 witness: evaluates the claim on a concrete authentication failure. -/
theorem Status_otherError_shortCircuits_witness :
    (Status rpcC2 cid64).1 =
      { st := TxStatus.zero, found := false,
        err := some (Err.rpc (-32600) "authentication failed") } ∧
    (Status rpcC2 cid64).2 =
      [RpcCall.callGetRawTransaction (strToLower (strTrimSpace cid64))] :=
  Status_otherError_shortCircuits rpcC2 cid64 (Err.rpc (-32600) "authentication failed")
    (by decide) (by decide) rfl (by decide)

/-- C3: for every valid 64-hex txid whose direct lookup succeeds, `Status`
returns `found = true` and derives `inMempool`: it is true exactly when the
reply's confirmation count is zero and the reply's block hash is empty. -/
theorem Status_success_derives_inMempool (rpc : RPC) (txidArg : String) (v : VerboseTx)
    (h1 : hexDecodeOk (strToLower (strTrimSpace txidArg)) = true)
    (h2 : (strToLower (strTrimSpace txidArg)).data.length = 64)
    (h3 : rpc.getRawTransactionReply (strToLower (strTrimSpace txidArg)) =
      Except.ok v) :
    (Status rpc txidArg).1.found = true ∧
    ((Status rpc txidArg).1.st.inMempool = true ↔
      (v.confirmations = 0 ∧ v.blockHash = "")) := by
  simp [Status, h1, h2, h3]

/-- C3 witness: evaluates the claim on a concrete unconfirmed reply. -/
theorem Status_success_derives_inMempool_witness :
    (Status rpcC3 cid64).1.found = true ∧
    ((Status rpcC3 cid64).1.st.inMempool = true ↔ ((0 : Int) = 0 ∧ "" = "")) :=
  Status_success_derives_inMempool rpcC3 cid64
    { txid := strToLower (strTrimSpace cid64), blockHash := "", confirmations := 0 }
    (by decide) (by decide) rfl

/-- C4: `WaitForConfirmations` rejects a negative target with the invalid
input error before any transport call; for a non-negative target its result
is exactly the spec-side first settled result over the per-poll `Status`
outcomes; and a poll whose `Status` carries an error terminates the run at
once with that error, with no transport calls beyond that poll's. -/
theorem WaitForConfirmations_contract (polls : List RPC) (txid : String) (c : Int) :
    (c < 0 → WaitForConfirmations polls txid c =
      (Except.error (Err.plain "broadcast: confirmations must be >= 0"), [])) ∧
    (0 ≤ c → (WaitForConfirmations polls txid c).1 =
      specFirstSettled c (polls.map fun rpc => (Status rpc txid).1)) ∧
    (∀ (rpc : RPC) (rest : List RPC) (e : Err), 0 ≤ c →
      (Status rpc txid).1.err = some e →
      WaitForConfirmations (rpc :: rest) txid c =
        (Except.error e, (Status rpc txid).2)) := by
  refine ⟨?_, ?_, ?_⟩
  · intro h
    simp [WaitForConfirmations, h]
  · intro h
    simp [WaitForConfirmations, not_lt.mpr h, waitLoop_fst_eq]
  · intro rpc rest e h he
    simp [WaitForConfirmations, not_lt.mpr h, waitLoop, he]

/-- C4 witness: evaluates the claim at a negative target, at a satisfied
confirmed poll, and at an erroring poll. -/
theorem WaitForConfirmations_contract_witness :
    WaitForConfirmations [] "" (-1) =
      (Except.error (Err.plain "broadcast: confirmations must be >= 0"), []) ∧
    (WaitForConfirmations [rpcC4ok] cid64 1).1 =
      specFirstSettled 1 ([rpcC4ok].map fun rpc => (Status rpc cid64).1) ∧
    WaitForConfirmations [rpcC4err] cid64 0 =
      (Except.error (Err.plain "boom"), (Status rpcC4err cid64).2) :=
  ⟨(WaitForConfirmations_contract [] "" (-1)).1 (by decide),
   (WaitForConfirmations_contract [rpcC4ok] cid64 1).2.1 (by decide),
   (WaitForConfirmations_contract [rpcC4err] cid64 0).2.2 rpcC4err []
     (Err.plain "boom") (by decide) (by decide)⟩

/-- C5: a successfully returned identifier is trimmed and lowercased; when
the normalized result is 64 hex characters `Submit` returns it, and
otherwise `Submit` fails with the invalid-txid error. -/
theorem Submit_normalizes_returned_txid (rpc : RPC) (rawTxHex raw txid0 : String)
    (h1 : normalizeHex rawTxHex = Except.ok raw)
    (h2 : rpc.sendRawTransactionReply raw = Except.ok txid0) :
    ((hexDecodeOk (strToLower (strTrimSpace txid0)) &&
        (strToLower (strTrimSpace txid0)).data.length = 64) = true →
      (Submit rpc rawTxHex).1 = Except.ok (strToLower (strTrimSpace txid0))) ∧
    ((hexDecodeOk (strToLower (strTrimSpace txid0)) &&
        (strToLower (strTrimSpace txid0)).data.length = 64) = false →
      (Submit rpc rawTxHex).1 =
        Except.error (Err.plain "broadcast: node returned invalid txid")) := by
  constructor
  · intro hok
    simp only [Submit, h1, h2]
    rw [hok]
    simp
  · intro hbad
    simp only [Submit, h1, h2]
    rw [hbad]
    simp

/-- C5 witness: submitting the payload 00 where the transport returns 64
uppercase A characters yields 64 lowercase a characters. -/
theorem Submit_normalizes_returned_txid_witness :
    (Submit rpcC5 "00").1 =
      Except.ok (strToLower (strTrimSpace (String.mk (List.replicate 64 'A')))) ∧
    strToLower (strTrimSpace (String.mk (List.replicate 64 'A'))) =
      String.mk (List.replicate 64 'a') :=
  ⟨(Submit_normalizes_returned_txid rpcC5 "00" "00"
      (String.mk (List.replicate 64 'A')) rfl rfl).1 (by decide),
   by decide⟩

/-- C6: for every input whose trimmed form is empty or not decodable hex,
`Submit` fails with the corresponding invalid-input error and makes no
transport call. -/
theorem Submit_rejects_invalid_input (rpc : RPC) (rawTxHex : String)
    (h : strTrimSpace rawTxHex = "" ∨ hexDecodeOk (strTrimSpace rawTxHex) = false) :
    (Submit rpc rawTxHex).1 =
      Except.error (Err.plain
        (if strTrimSpace rawTxHex = "" then "broadcast: raw tx hex is required"
         else "broadcast: raw tx hex must be hex")) ∧
    (Submit rpc rawTxHex).2 = [] := by
  by_cases he : strTrimSpace rawTxHex = ""
  · simp [Submit, normalizeHex, he]
  · have hx : hexDecodeOk (strTrimSpace rawTxHex) = false := h.resolve_left he
    simp [Submit, normalizeHex, he, hx]

/-- C6 witness: evaluates the claim on the non-hex input zz. -/
theorem Submit_rejects_invalid_input_witness :
    (Submit rpcC6 "zz").1 =
      Except.error (Err.plain
        (if strTrimSpace "zz" = "" then "broadcast: raw tx hex is required"
         else "broadcast: raw tx hex must be hex")) ∧
    (Submit rpcC6 "zz").2 = [] :=
  Submit_rejects_invalid_input rpcC6 "zz" (Or.inr (by decide))

/-- C7 counterexample: a daemon reply carrying a block hash together with
zero confirmations is copied into the returned status verbatim, so a
`found = true` status violates the invariant that a block hash is present
only when confirmations are positive. -/
theorem Status_invariant_counterexample :
    (Status rpcC7 cid64).1.found = true ∧
    (Status rpcC7 cid64).1.st.blockHash ≠ "" ∧
    ¬ 0 < (Status rpcC7 cid64).1.st.confirmations := by decide

/-- C7 amended: every `found = true` status satisfies confirmations = 0
whenever `inMempool` is true; the remaining invariant parts (non-negative
confirmations, block hash present only with positive confirmations) hold
provided the direct-lookup reply itself reports a non-negative confirmation
count and a trimmed-nonempty block hash only with positive confirmations. -/
theorem Status_invariant_amended (rpc : RPC) (txidArg : String)
    (hf : (Status rpc txidArg).1.found = true) :
    ((Status rpc txidArg).1.st.inMempool = true →
      (Status rpc txidArg).1.st.confirmations = 0) ∧
    (∀ v : VerboseTx,
      rpc.getRawTransactionReply (strToLower (strTrimSpace txidArg)) = Except.ok v →
      0 ≤ v.confirmations →
      (strTrimSpace v.blockHash ≠ "" → 0 < v.confirmations) →
      0 ≤ (Status rpc txidArg).1.st.confirmations ∧
      ((Status rpc txidArg).1.st.blockHash ≠ "" →
        0 < (Status rpc txidArg).1.st.confirmations)) := by
  by_cases hh : hexDecodeOk (strToLower (strTrimSpace txidArg)) = true
  · by_cases hl : (strToLower (strTrimSpace txidArg)).length = 64
    · cases hrpc : rpc.getRawTransactionReply (strToLower (strTrimSpace txidArg)) with
      | ok v0 =>
        constructor
        · intro hm
          simp [Status, hh, hl, hrpc] at hm ⊢
          exact hm.1
        · intro v heq hnn hbh
          injection heq with heq
          subst heq
          constructor
          · simp [Status, hh, hl, hrpc]
            exact hnn
          · intro hb
            simp [Status, hh, hl, hrpc] at hb ⊢
            exact hbh hb
      | error e =>
        by_cases hnf : isNotFoundErr e = false
        · simp [Status, hh, hl, hrpc, hnf] at hf
        · have hnf2 : isNotFoundErr e = true := by
            revert hnf
            cases isNotFoundErr e <;> simp
          cases hmp : rpc.getRawMempoolReply with
          | error e2 => simp [Status, hh, hl, hrpc, hnf2, hmp] at hf
          | ok l =>
            by_cases hany : (l.any fun id =>
                strToLower (strTrimSpace id) = strToLower (strTrimSpace txidArg)) = true
            · constructor
              · intro _
                simp [Status, hh, hl, hrpc, hnf2, hmp, hany]
              · intro v heq
                simp at heq
            · simp [Status, hh, hl, hrpc, hnf2, hmp, hany] at hf
    · simp [Status, hh, hl] at hf
  · simp [Status, hh] at hf

/-- C7 witness: evaluates the amended claim on a well-formed confirmed
reply. -/
theorem Status_invariant_amended_witness :
    ((Status rpcC7b cid64).1.st.inMempool = true →
      (Status rpcC7b cid64).1.st.confirmations = 0) ∧
    (0 ≤ (Status rpcC7b cid64).1.st.confirmations ∧
     ((Status rpcC7b cid64).1.st.blockHash ≠ "" →
       0 < (Status rpcC7b cid64).1.st.confirmations)) := by
  have h := Status_invariant_amended rpcC7b cid64 (by decide)
  exact ⟨h.1, h.2 { txid := strToLower (strTrimSpace cid64), blockHash := "ab",
                    confirmations := 3 } rfl (by decide) (by decide)⟩

/-- C8: for every nonempty decodable-hex input, `Submit` performs exactly
one transport call, whose payload is the trimmed input with its original
case preserved. -/
theorem Submit_forwards_trimmed_payload (rpc : RPC) (rawTxHex : String)
    (h1 : strTrimSpace rawTxHex ≠ "")
    (h2 : hexDecodeOk (strTrimSpace rawTxHex) = true) :
    (Submit rpc rawTxHex).2 =
      [RpcCall.sendRawTransaction (strTrimSpace rawTxHex)] := by
  cases hs : rpc.sendRawTransactionReply (strTrimSpace rawTxHex) with
  | ok t =>
    simp [Submit, normalizeHex, h1, h2, hs]
    split <;> rfl
  | error e => simp [Submit, normalizeHex, h1, h2, hs]

/-- C8 witness: evaluates the claim on a mixed-case padded input. -/
theorem Submit_forwards_trimmed_payload_witness :
    (Submit rpcC6 " AbCd ").2 =
      [RpcCall.sendRawTransaction (strTrimSpace " AbCd ")] :=
  Submit_forwards_trimmed_payload rpcC6 " AbCd " (by decide) (by decide)

/-- C9: construction fails with the config error exactly when the transport
is nil, and a poll-interval option with a non-positive value is ignored so
that the 500 ms default is retained, never causing a failure. -/
theorem New_config_contract (b : Bool)
    (opts : List (Option (ClientCfg → ClientCfg))) (d : Int) :
    ((New b opts = Except.error (Err.plain "broadcast: rpc is nil")) ↔ b = false) ∧
    New true [some (WithPollInterval d)] =
      Except.ok { pollInterval := if 0 < d then d else defaultPollInterval } := by
  constructor
  · cases b <;> simp [New]
  · by_cases hd : 0 < d <;> simp [New, WithPollInterval, hd]

/-- C10: an error is classified as not-found only when it is, or wraps, a
`junocashd.RPCError`; any other error type is propagated from `Status`
without the mempool fallback even when its message contains not-found
phrasing. -/
theorem isNotFoundErr_only_rpcError (e : Err) (rpc : RPC) (txidArg : String)
    (h0 : errAsRPC e = none) :
    isNotFoundErr e = false ∧
    (hexDecodeOk (strToLower (strTrimSpace txidArg)) = true →
     (strToLower (strTrimSpace txidArg)).data.length = 64 →
     rpc.getRawTransactionReply (strToLower (strTrimSpace txidArg)) = Except.error e →
     (Status rpc txidArg).1 = { st := TxStatus.zero, found := false, err := some e } ∧
     (Status rpc txidArg).2 =
       [RpcCall.callGetRawTransaction (strToLower (strTrimSpace txidArg))]) := by
  have hnf : isNotFoundErr e = false := by simp [isNotFoundErr, h0]
  exact ⟨hnf, fun h1 h2 h3 => status_error_no_fallback rpc txidArg e h1 h2 h3 hnf⟩

/-- C10 witness: a non-RPCError message containing not-found phrasing is
still propagated without the mempool fallback. -/
theorem isNotFoundErr_only_rpcError_witness :
    isNotFoundErr (Err.plain "transaction not found: no such row") = false ∧
    ((Status rpcC10 cid64).1 =
      { st := TxStatus.zero, found := false,
        err := some (Err.plain "transaction not found: no such row") } ∧
     (Status rpcC10 cid64).2 =
       [RpcCall.callGetRawTransaction (strToLower (strTrimSpace cid64))]) := by
  have h := isNotFoundErr_only_rpcError (Err.plain "transaction not found: no such row")
    rpcC10 cid64 rfl
  exact ⟨h.1, h.2 (by decide) (by decide) rfl⟩

end Broadcast
